import Mathlib

/-!
Verification of the configuration-resolver and launcher scripts of the
charara wind-analysis repository.  The Python sources are shallowly
embedded: JSON/YAML trees become the inductive `JValue`, Python dicts
become association lists with Python dict semantics (`Dict.lookup`,
`Dict.set`, `Dict.update`), the filesystem becomes a map from paths to
file contents, and fallible operations return `Except`.  Python float
literals are carried as exact rationals (no arithmetic is ever performed
on them), and the JSON/YAML codec is modelled as storing the tree itself
(Python json round-trips such trees faithfully).
-/

/-- Tree-shaped configuration value, as produced by json.load / yaml.safe_load:
null, booleans, integers, floats, strings, sequences and string-keyed mappings. -/
inductive JValue where
  | null
  | bool (b : Bool)
  | num (n : Int)
  | rat (q : Rat)
  | str (s : String)
  | arr (items : List JValue)
  | obj (entries : List (String × JValue))

/-- Auxiliary for `pySplitDot`: accumulates the current segment (reversed). -/
def pySplitDotAux : List Char → List Char → List String
  | [], acc => [String.mk acc.reverse]
  | c :: rest, acc =>
    if c = '.' then String.mk acc.reverse :: pySplitDotAux rest []
    else pySplitDotAux rest (c :: acc)

/-- Python `key.split('.')`: splits a string at every period; the empty
string splits to `[""]`. -/
def pySplitDot (s : String) : List String :=
  pySplitDotAux s.data []

namespace Dict

/-- Python `d[k]` / `k in d` on a dict represented as an association list
with unique keys: the value at the first matching key. -/
def lookup : List (String × JValue) → String → Option JValue
  | [], _ => none
  | (k', v) :: rest, k => if k' = k then some v else lookup rest k

/-- Python `d[k] = v`: replaces the value at an existing key in place,
otherwise appends the new binding at the end (insertion order). -/
def set : List (String × JValue) → String → JValue → List (String × JValue)
  | [], k, v => [(k, v)]
  | (k', v') :: rest, k, v =>
    if k' = k then (k, v) :: rest else (k', v') :: set rest k v

/-- Python `base.update(other)`: assigns every binding of `other` into
`base`, in order. -/
def update (base other : List (String × JValue)) : List (String × JValue) :=
  other.foldl (fun acc kv => set acc kv.1 kv.2) base

end Dict

/-- Python truthiness of a configuration value (`if not path_value: ...`):
None, False, zero, the empty string and empty containers are falsy. -/
def isFalsy : JValue → Bool
  | .null => true
  | .bool b => !b
  | .num n => if n = 0 then true else false
  | .rat q => if q = 0 then true else false
  | .str s => if s = "" then true else false
  | .arr items => items.isEmpty
  | .obj entries => entries.isEmpty

/-- POSIX `Path(p).is_absolute()`: the path starts with a slash. -/
def isAbsolute (p : String) : Bool :=
  match p.data with
  | [] => false
  | c :: _ => c == '/'

/-- `Path(b) / p` for a relative `p`, modelled as separator concatenation. -/
def joinPath (b p : String) : String :=
  b ++ "/" ++ p

/-- Contents of a configuration file on disk: either text that fails to
parse, or text that parses to a tree.  A faithful JSON/YAML codec is
modelled by storing the parsed tree itself. -/
inductive FileContent where
  | malformed
  | parsed (v : JValue)

/-- The filesystem as seen by the configuration managers: each path is
missing (`none`) or holds a file. -/
def FS : Type := String → Option FileContent

/-- Writing a file: a fresh filesystem where `path` holds the serialized
tree and every other path is unchanged. -/
def writeFile (fs : FS) (path : String) (v : JValue) : FS :=
  fun p => if p = path then some (.parsed v) else fs p

namespace ConfigurationManager

/-- Default tree of scripts/configuration_manager.py, create_default_config. -/
def default_config : JValue :=
  .obj [
    ("project", .obj [
      ("name", .str "Lake Kariba Wind Analysis"),
      ("version", .str "1.0")]),
    ("analysis_period", .obj [
      ("start_year", .num 2015),
      ("end_year", .num 2020)]),
    ("paths", .obj [
      ("base_directory", .str "/home/chawas/deployed/charara"),
      ("data", .obj [
        ("wind_data", .str ""),
        ("era5_data", .str "")]),
      ("output", .obj [
        ("base", .str "/home/chawas/deployed/charara/output")])])]

/-- Loop body of ConfigManager.get: walk the split key over the tree,
returning the caller default as soon as the current value is not a dict
or the segment is not one of its keys. -/
def getLoop (value : JValue) (keys : List String) (default : JValue) : JValue :=
  match keys with
  | [] => value
  | k :: rest =>
    match value with
    | .obj entries =>
      match Dict.lookup entries k with
      | some v => getLoop v rest default
      | none => default
    | _ => default

/-- ConfigManager.get of scripts/configuration_manager.py (dot notation,
caller default None when not supplied). -/
def get (config : JValue) (key : String) (default : JValue) : JValue :=
  getLoop config (pySplitDot key) default

/-- ConfigManager.get_path of scripts/configuration_manager.py: falsy
value gives None; an absolute string path is returned as is; a relative
one is joined to paths.base_directory (default "."); a truthy non-string
value makes the Path constructor raise (modelled as `Except.error`). -/
def get_path (config : JValue) (key : String) : Except Unit (Option String) :=
  if isFalsy (get config key JValue.null) then .ok none
  else
    match get config key JValue.null with
    | JValue.str p =>
      if isAbsolute p then .ok (some p)
      else
        match get config "paths.base_directory" (JValue.str ".") with
        | JValue.str b => .ok (some (joinPath b p))
        | _ => .error ()
    | _ => .error ()

/-- Outcome of constructing this manager: a loaded tree plus the
filesystem after the load, or process termination via sys.exit. -/
inductive LoadOutcome where
  | ok (config : JValue) (fs : FS)
  | exited (code : Nat)

/-- ConfigManager.create_default_config: write the default tree to the
config file (the write is modelled as succeeding) and return it. -/
def create_default_config (fs : FS) (config_file : String) : JValue × FS :=
  (default_config, writeFile fs config_file default_config)

/-- ConfigManager.load_config of scripts/configuration_manager.py: a
missing file falls back to creating the default; a JSON parse error
calls sys.exit(1). -/
def load_config (fs : FS) (config_file : String) : LoadOutcome :=
  match fs config_file with
  | some (.parsed v) => .ok v fs
  | none =>
    match create_default_config fs config_file with
    | (c, fs') => .ok c fs'
  | some .malformed => .exited 1

/-- ConfigManager.save_config: overwrite the backing file with the
in-memory tree. -/
def save_config (fs : FS) (config_file : String) (config : JValue) : FS :=
  writeFile fs config_file config

/-- ConfigManager.update_analysis_period of scripts/configuration_manager.py:
subscript assignment into config["analysis_period"], then save_config.
When analysis_period is missing or not a dict the subscripting raises
(KeyError / TypeError), modelled as `Except.error`. -/
def update_analysis_period (fs : FS) (config_file : String) (config : JValue)
    (start_year end_year : Int) : Except Unit (JValue × FS) :=
  match config with
  | .obj entries =>
    match Dict.lookup entries "analysis_period" with
    | some (.obj ap) =>
      let ap1 := Dict.set (Dict.set ap "start_year" (.num start_year))
        "end_year" (.num end_year)
      let config1 := JValue.obj (Dict.set entries "analysis_period" (.obj ap1))
      .ok (config1, save_config fs config_file config1)
    | _ => .error ()
  | _ => .error ()

/-- State of the module-level singleton `_config_manager`: `none` before
the first get_config call, otherwise the cached instance, represented by
the config_file argument it was constructed from. -/
def SingletonState : Type := Option (Option String)

/-- get_config of scripts/configuration_manager.py: constructs a
ConfigManager on the first call and returns the cached instance (ignoring
the argument) on every later call.  Returns the instance and the new
module state. -/
def get_config (state : SingletonState) (config_file : Option String) :
    Option String × SingletonState :=
  match state with
  | none => (config_file, some config_file)
  | some inst => (inst, some inst)

end ConfigurationManager

namespace ConfigManager01

/-- Default tree of scripts/config_manager_01.py, create_default_config
(Python float literals carried as exact rationals). -/
def default_config : JValue :=
  .obj [
    ("project", .obj [
      ("name", .str "Lake Kariba Wind Analysis"),
      ("version", .str "1.0.0"),
      ("description", .str "Wind analysis for floating solar panels at Lake Kariba")]),
    ("analysis_period", .obj [
      ("start_year", .num 2015),
      ("end_year", .num 2020)]),
    ("paths", .obj [
      ("base_directory", .str "/home/chawas/deployed/charara"),
      ("data", .obj [
        ("wind_data", .str "/home/chawas/deployed/charara/data/era5_downloads/wind_data.nc"),
        ("era5_data", .str "/home/chawas/deployed/charara/data/era5_downloads/era5_data.nc")]),
      ("scripts", .str "/home/chawas/deployed/charara/scripts"),
      ("output", .obj [
        ("base", .str "/home/chawas/deployed/charara/output"),
        ("maps", .str "/home/chawas/deployed/charara/output/wind_maps"),
        ("timeseries", .str "/home/chawas/deployed/charara/output/timeseries"),
        ("statistics", .str "/home/chawas/deployed/charara/output/statistics"),
        ("reports", .str "/home/chawas/deployed/charara/output/reports")]),
      ("templates", .str "/home/chawas/deployed/charara/templates"),
      ("logs", .str "/home/chawas/deployed/charara/logs")]),
    ("location", .obj [
      ("site_name", .str "Charara Floating Solar Site"),
      ("latitude", .rat (-16.53)),
      ("longitude", .rat 28.83),
      ("description", .str "Northeastern Lake Kariba, Zimbabwe")]),
    ("analysis_parameters", .obj [
      ("wind_speed_thresholds", .obj [
        ("normal_operation", .rat 8.0),
        ("caution", .rat 12.0),
        ("danger", .rat 15.0),
        ("emergency_shutdown", .rat 18.0)]),
      ("map_extent", .obj [
        ("min_lon", .rat 26.5),
        ("max_lon", .rat 29.5),
        ("min_lat", .rat (-18.0)),
        ("max_lat", .rat (-16.0))]),
      ("charara_highlight_radius", .rat 0.2),
      ("wind_speed_range", .arr [.num 0, .num 10])]),
    ("plotting", .obj [
      ("figure_size", .arr [.num 16, .num 12]),
      ("dpi", .num 300),
      ("font_size", .obj [
        ("title", .num 16),
        ("axis", .num 12),
        ("legend", .num 10),
        ("annotation", .num 9)])])]

/-- ConfigManager.create_default_config of scripts/config_manager_01.py:
write the default tree to the config file (the write is modelled as
succeeding; a write failure is caught and only logged) and return it. -/
def create_default_config (fs : FS) (config_file : String) : JValue × FS :=
  (default_config, writeFile fs config_file default_config)

/-- ConfigManager.load_config of scripts/config_manager_01.py: a missing
file and a JSON parse error both fall back to create_default_config; a
file that parses is returned as is (no overlay onto the defaults). -/
def load_config (fs : FS) (config_file : String) : JValue × FS :=
  match fs config_file with
  | none => create_default_config fs config_file
  | some .malformed => create_default_config fs config_file
  | some (.parsed v) => (v, fs)

/-- ConfigManager.get of scripts/config_manager_01.py: same walk as
scripts/configuration_manager.py (the surrounding try/except can only
fire on a non-string key, which the embedding excludes by typing). -/
def get (config : JValue) (key : String) (default : JValue) : JValue :=
  ConfigurationManager.getLoop config (pySplitDot key) default

/-- Per-directory creation loop of ConfigManager.setup_directories of
scripts/config_manager_01.py, applied to the resolved directory list:
each os.makedirs failure (described by `fails`) is caught and logged for
that directory only, so every directory is attempted and the loop always
completes.  Returns each directory paired with whether it was created. -/
def setup_directories (fails : String → Bool) : List String → List (String × Bool)
  | [] => []
  | d :: rest => (d, !fails d) :: setup_directories fails rest

/-- ConfigManager.save_config of scripts/config_manager_01.py: overwrite
the backing file with the in-memory tree. -/
def save_config (fs : FS) (config_file : String) (config : JValue) : FS :=
  writeFile fs config_file config

/-- ConfigManager.update_analysis_period of scripts/config_manager_01.py:
insert an empty analysis_period dict if the key is missing, assign
start_year and end_year into it, then save_config.  When the stored
analysis_period value is not a dict the subscript assignment raises a
TypeError, modelled as `Except.error`. -/
def update_analysis_period (fs : FS) (config_file : String) (config : JValue)
    (start_year end_year : Int) : Except Unit (JValue × FS) :=
  match config with
  | .obj entries =>
    let entries1 :=
      if (Dict.lookup entries "analysis_period").isNone then
        Dict.set entries "analysis_period" (.obj [])
      else entries
    match Dict.lookup entries1 "analysis_period" with
    | some (.obj ap) =>
      let ap1 := Dict.set (Dict.set ap "start_year" (.num start_year))
        "end_year" (.num end_year)
      let config1 := JValue.obj (Dict.set entries1 "analysis_period" (.obj ap1))
      .ok (config1, save_config fs config_file config1)
    | _ => .error ()
  | _ => .error ()

end ConfigManager01

namespace ConfigManagerYaml

/-- Top-level entries of the default tree of scripts/config_manager.py,
ConfigManager._load_config; `created` stands for the datetime.now date
string computed at load time. -/
def default_entries (created : String) : List (String × JValue) :=
  [("project", .obj [
      ("name", .str "Lake Kariba Floating Solar Wind Analysis"),
      ("version", .str "2.0"),
      ("description", .str "Enhanced wind analysis for floating solar feasibility"),
      ("author", .str "Wind Analysis Team"),
      ("created", .str created)]),
   ("analysis_period", .obj [
      ("start_year", .num 2015),
      ("end_year", .num 2020),
      ("years", .arr [.num 2015, .num 2016, .num 2017, .num 2018, .num 2019, .num 2020])]),
   ("location", .obj [
      ("site_name", .str "Charara Floating Solar Site"),
      ("latitude", .rat (-16.53)),
      ("longitude", .rat 28.83),
      ("region", .str "Lake Kariba, Zimbabwe-Zambia border"),
      ("elevation", .num 485)]),
   ("wind_analysis", .obj [
      ("variables", .arr [.str "u10", .str "v10", .str "t2m", .str "sp", .str "d2m", .str "blh"]),
      ("wind_speed_bins", .arr [.num 0, .num 2, .num 5, .num 8, .num 12, .num 20]),
      ("direction_bins", .num 16),
      ("seasons", .obj [
        ("summer", .arr [.num 12, .num 1, .num 2]),
        ("autumn", .arr [.num 3, .num 4, .num 5]),
        ("winter", .arr [.num 6, .num 7, .num 8]),
        ("spring", .arr [.num 9, .num 10, .num 11])]),
      ("percentiles", .arr [.num 5, .num 25, .num 50, .num 75, .num 95, .num 99])]),
   ("era5", .obj [
      ("dataset", .str "reanalysis-era5-single-levels"),
      ("variables", .arr [
        .str "10m_u_component_of_wind",
        .str "10m_v_component_of_wind",
        .str "2m_temperature",
        .str "surface_pressure",
        .str "2m_dewpoint_temperature",
        .str "boundary_layer_height"]),
      ("area", .arr [.rat (-10.0), .rat 26.0, .rat (-18.0), .rat 30.0]),
      ("grid_resolution", .arr [.rat 0.25, .rat 0.25]),
      ("time_step", .str "hourly")]),
   ("paths", .obj [
      ("base_directory", .str "/home/chawas/deployed/charara"),
      ("data", .obj [
        ("era5_raw", .str "data/era5_raw"),
        ("era5_processed", .str "data/era5_processed"),
        ("wind_data", .str "data/wind_data.nc"),
        ("lake_shapefile", .str "data/shapefiles/lake_kariba.shp"),
        ("topography", .str "data/topography")]),
      ("output", .obj [
        ("base", .str "output"),
        ("maps", .str "output/maps"),
        ("timeseries", .str "output/timeseries"),
        ("statistics", .str "output/statistics"),
        ("reports", .str "output/reports"),
        ("clustering", .str "output/clustering"),
        ("validation", .str "output/validation")]),
      ("scripts", .str "scripts"),
      ("templates", .str "templates"),
      ("logs", .str "logs")]),
   ("visualization", .obj [
      ("colormaps", .obj [
        ("wind_speed", .str "viridis"),
        ("temperature", .str "plasma"),
        ("pressure", .str "cividis"),
        ("direction", .str "hsv")]),
      ("figure_size", .arr [.num 12, .num 8]),
      ("dpi", .num 150),
      ("font_size", .num 12),
      ("style", .str "seaborn-v0_8-darkgrid")]),
   ("clustering", .obj [
      ("n_clusters", .num 4),
      ("features", .arr [.str "wind_speed", .str "wind_direction", .str "temperature"]),
      ("algorithm", .str "kmeans"),
      ("random_state", .num 42)]),
   ("reporting", .obj [
      ("format", .str "html"),
      ("include_sections", .arr [
        .str "executive_summary", .str "methodology", .str "results", .str "conclusions"]),
      ("generate_pdf", .bool true),
      ("email_report", .bool false)])]

/-- One iteration of the merge loop of ConfigManager._load_config of
scripts/config_manager.py: a key whose value is a dict on both sides
updates the default dict in place; any other key is assigned wholesale. -/
def mergeStep (config : List (String × JValue)) (kv : String × JValue) :
    List (String × JValue) :=
  match Dict.lookup config kv.1, kv.2 with
  | some (.obj d), .obj u => Dict.set config kv.1 (.obj (Dict.update d u))
  | _, _ => Dict.set config kv.1 kv.2

/-- The merge of ConfigManager._load_config of scripts/config_manager.py:
default entries as the base, each user entry applied in order. -/
def mergeConfig (defaults user : List (String × JValue)) :
    List (String × JValue) :=
  user.foldl mergeStep defaults

/-- ConfigManager._load_config of scripts/config_manager.py: a file that
parses to a non-empty dict is merged onto the defaults; every other case
(missing file, parse error caught and logged, empty or non-dict
contents) saves and returns the default tree. -/
def load_config (fs : FS) (config_file : String) (created : String) :
    JValue × FS :=
  match fs config_file with
  | some (.parsed (.obj (e :: rest))) =>
    (.obj (mergeConfig (default_entries created) (e :: rest)), fs)
  | _ =>
    (.obj (default_entries created),
     writeFile fs config_file (.obj (default_entries created)))

/-- Per-directory loop of ConfigManager._create_directories of
scripts/config_manager.py, applied to the resolved directory list: each
mkdir runs with no try/except, so the first failure (described by
`fails`) propagates and the remaining directories are never attempted.
On success returns the created directories in order. -/
def create_directories (fails : String → Bool) :
    List String → Except String (List String)
  | [] => .ok []
  | d :: rest =>
    if fails d then .error d
    else
      match create_directories fails rest with
      | .ok created => .ok (d :: created)
      | .error e => .error e

/-- Loop body of ConfigManager.get of scripts/config_manager.py: walks
with dict.get (missing keys give None), returns the caller default when
the current value is not a dict, and at the end substitutes the caller
default for None. -/
def getLoop (value : JValue) (keys : List String) (default : JValue) : JValue :=
  match keys with
  | [] =>
    match value with
    | .null => default
    | v => v
  | k :: rest =>
    match value with
    | .obj entries =>
      getLoop (match Dict.lookup entries k with
               | some v => v
               | none => JValue.null) rest default
    | _ => default

/-- ConfigManager.get of scripts/config_manager.py (the dict.get based
variant). -/
def get (config : JValue) (key : String) (default : JValue) : JValue :=
  getLoop config (pySplitDot key) default

end ConfigManagerYaml

namespace RunAnalysis

/-- What the child analysis process did: exited with a code, or the run
was torn down by an exception or KeyboardInterrupt in the launcher. -/
inductive ChildOutcome where
  | code (c : Int)
  | interrupted

/-- main of scripts/run_analysis_terminal.py: missing virtual environment
or missing analysis script return 1 before launching; otherwise the
launcher blocks on the child and returns 0 on child exit code 0 and 1 on
any other child exit code or exception. -/
def terminal_main (venvExists scriptExists : Bool) (child : ChildOutcome) : Int :=
  if venvExists = false then 1
  else if scriptExists = false then 1
  else
    match child with
    | .code c => if c = 0 then 0 else 1
    | .interrupted => 1

/-- run_analysis of scripts/run_analysis_05.py: identical gating and exit
code policy as the terminal launcher (Popen variant, streamed output). -/
def standalone_run (venvExists scriptExists : Bool) (child : ChildOutcome) : Int :=
  if venvExists = false then 1
  else if scriptExists = false then 1
  else
    match child with
    | .code c => if c = 0 then 0 else 1
    | .interrupted => 1

end RunAnalysis

/-- Modelled from the spec: the dotted-key walk as the spec states it,
segment by segment, with `none` as soon as the current value is not a
mapping or the next segment is not one of its keys. -/
def specWalk : JValue → List String → Option JValue
  | v, [] => some v
  | v, k :: rest =>
    match v with
    | .obj entries =>
      match Dict.lookup entries k with
      | some v' => specWalk v' rest
      | none => none
    | _ => none

/-- Modelled from the spec: dotted-key lookup returning the value reached
after the last segment, or the caller-supplied default as soon as the
walk fails. -/
def specGet (config : JValue) (key : String) (default : JValue) : JValue :=
  match specWalk config (pySplitDot key) with
  | some v => v
  | none => default

theorem Dict.lookup_set_self (l : List (String × JValue)) (k : String) (v : JValue) :
    Dict.lookup (Dict.set l k v) k = some v := by
  induction l with
  | nil => simp [Dict.set, Dict.lookup]
  | cons e rest ih =>
    by_cases h : e.1 = k
    · simp [Dict.set, Dict.lookup, h]
    · simp [Dict.set, Dict.lookup, h, ih]

theorem Dict.lookup_set_ne (l : List (String × JValue)) (k : String) (v : JValue)
    (k' : String) (h : k' ≠ k) :
    Dict.lookup (Dict.set l k v) k' = Dict.lookup l k' := by
  have h' : ¬(k = k') := fun hk => h hk.symm
  induction l with
  | nil => simp [Dict.set, Dict.lookup, h']
  | cons e rest ih =>
    obtain ⟨k0, v0⟩ := e
    by_cases he : k0 = k
    · subst he
      simp [Dict.set, Dict.lookup, h']
    · simp only [Dict.set, he, if_false]
      by_cases he' : k0 = k'
      · simp [Dict.lookup, he']
      · simp [Dict.lookup, he', ih]

theorem Dict.update_cons (d : List (String × JValue)) (e : String × JValue)
    (rest : List (String × JValue)) :
    Dict.update d (e :: rest) = Dict.update (Dict.set d e.1 e.2) rest := rfl

theorem Dict.update_lookup_notMem (other d : List (String × JValue)) (k : String)
    (h : k ∉ other.map Prod.fst) :
    Dict.lookup (Dict.update d other) k = Dict.lookup d k := by
  induction other generalizing d with
  | nil => rfl
  | cons e rest ih =>
    simp only [List.map_cons, List.mem_cons, not_or] at h
    rw [Dict.update_cons, ih (Dict.set d e.1 e.2) h.2,
      Dict.lookup_set_ne _ _ _ _ h.1]

theorem Dict.update_lookup_mem (other d : List (String × JValue)) (k : String) (v : JValue)
    (hnd : (other.map Prod.fst).Nodup) (hm : (k, v) ∈ other) :
    Dict.lookup (Dict.update d other) k = some v := by
  induction other generalizing d with
  | nil => cases hm
  | cons e rest ih =>
    obtain ⟨k0, v0⟩ := e
    simp only [List.map_cons, List.nodup_cons] at hnd
    rcases List.mem_cons.mp hm with he | hrest
    · have hk : k = k0 := congrArg Prod.fst he
      have hv : v = v0 := congrArg Prod.snd he
      subst hk
      subst hv
      rw [Dict.update_cons, Dict.update_lookup_notMem rest _ k hnd.1]
      exact Dict.lookup_set_self d k v
    · by_cases hk : k = k0
      · subst hk
        exact absurd (List.mem_map_of_mem Prod.fst hrest) hnd.1
      · rw [Dict.update_cons]
        exact ih (Dict.set d k0 v0) hnd.2 hrest

/-- The value the one-level merge stores at a key present in the user
mapping: both sides dicts means the default dict updated with the user
entries, anything else means the user value wholesale. -/
def mergedValue (dflt : Option JValue) (v : JValue) : Option JValue :=
  match dflt, v with
  | some (.obj dd), .obj uu => some (.obj (Dict.update dd uu))
  | _, _ => some v

theorem mergeStep_lookup_self (d : List (String × JValue)) (k : String) (v : JValue) :
    Dict.lookup (ConfigManagerYaml.mergeStep d (k, v)) k = mergedValue (Dict.lookup d k) v := by
  unfold ConfigManagerYaml.mergeStep mergedValue
  cases hd : Dict.lookup d k with
  | none => cases v <;> simp [hd, Dict.lookup_set_self]
  | some w => cases w <;> cases v <;> simp [hd, Dict.lookup_set_self]

theorem mergeStep_lookup_ne (d : List (String × JValue)) (e : String × JValue)
    (k : String) (h : k ≠ e.1) :
    Dict.lookup (ConfigManagerYaml.mergeStep d e) k = Dict.lookup d k := by
  unfold ConfigManagerYaml.mergeStep
  split <;> exact Dict.lookup_set_ne _ _ _ _ h

theorem mergeConfig_cons (d : List (String × JValue)) (e : String × JValue)
    (rest : List (String × JValue)) :
    ConfigManagerYaml.mergeConfig d (e :: rest) =
      ConfigManagerYaml.mergeConfig (ConfigManagerYaml.mergeStep d e) rest := rfl

theorem mergeConfig_lookup_notMem (u d : List (String × JValue)) (k : String)
    (h : k ∉ u.map Prod.fst) :
    Dict.lookup (ConfigManagerYaml.mergeConfig d u) k = Dict.lookup d k := by
  induction u generalizing d with
  | nil => rfl
  | cons e rest ih =>
    simp only [List.map_cons, List.mem_cons, not_or] at h
    rw [mergeConfig_cons, ih (ConfigManagerYaml.mergeStep d e) h.2,
      mergeStep_lookup_ne _ _ _ h.1]

theorem mergeConfig_lookup_mem (u d : List (String × JValue)) (k : String) (v : JValue)
    (hnd : (u.map Prod.fst).Nodup) (hm : (k, v) ∈ u) :
    Dict.lookup (ConfigManagerYaml.mergeConfig d u) k = mergedValue (Dict.lookup d k) v := by
  induction u generalizing d with
  | nil => cases hm
  | cons e rest ih =>
    obtain ⟨k0, v0⟩ := e
    simp only [List.map_cons, List.nodup_cons] at hnd
    rcases List.mem_cons.mp hm with he | hrest
    · have hk : k = k0 := congrArg Prod.fst he
      have hv : v = v0 := congrArg Prod.snd he
      subst hk
      subst hv
      rw [mergeConfig_cons, mergeConfig_lookup_notMem rest _ k hnd.1,
        mergeStep_lookup_self]
    · by_cases hk : k = k0
      · subst hk
        exact absurd (List.mem_map_of_mem Prod.fst hrest) hnd.1
      · rw [mergeConfig_cons, ih (ConfigManagerYaml.mergeStep d (k0, v0)) hnd.2 hrest,
          mergeStep_lookup_ne _ _ _ hk]

theorem getLoop_eq_specWalk (keys : List String) (value default : JValue) :
    ConfigurationManager.getLoop value keys default =
      match specWalk value keys with
      | some v => v
      | none => default := by
  induction keys generalizing value with
  | nil => rfl
  | cons k rest ih =>
    cases value with
    | obj entries =>
      cases h : Dict.lookup entries k with
      | some v => simp [ConfigurationManager.getLoop, specWalk, h, ih]
      | none => simp [ConfigurationManager.getLoop, specWalk, h]
    | null => rfl
    | bool b => rfl
    | num n => rfl
    | rat q => rfl
    | str s => rfl
    | arr items => rfl

theorem yamlGetLoop_null (keys : List String) (default : JValue) :
    ConfigManagerYaml.getLoop JValue.null keys default = default := by
  cases keys <;> rfl

theorem yamlGetLoop_eq_specWalk (keys : List String) (value default : JValue) :
    ConfigManagerYaml.getLoop value keys default =
      match specWalk value keys with
      | some JValue.null => default
      | some v => v
      | none => default := by
  induction keys generalizing value with
  | nil => cases value <;> rfl
  | cons k rest ih =>
    cases value with
    | obj entries =>
      cases h : Dict.lookup entries k with
      | some v => simp [ConfigManagerYaml.getLoop, specWalk, h, ih]
      | none => simp [ConfigManagerYaml.getLoop, specWalk, h, yamlGetLoop_null]
    | null => rfl
    | bool b => rfl
    | num n => rfl
    | rat q => rfl
    | str s => rfl
    | arr items => rfl

/-- Scenario file of C1: a config file containing only
analysis_period.start_year = 2018. -/
def scenarioC1FS : FS :=
  fun _ => some (.parsed (.obj [("analysis_period", .obj [("start_year", .num 2018)])]))

/-- C1: the merge of a loaded user mapping with the hardcoded default tree
is one level deep: a top-level key present in the user mapping stores the
default dict updated with the user entries when both sides are dicts and
the user value wholesale otherwise; keys absent from the user mapping keep
the default value; and the scenario file with only
analysis_period.start_year = 2018 merges to start_year 2018 with the
default end_year 2020. -/
theorem claim_C1 (d u : List (String × JValue)) (hnd : (u.map Prod.fst).Nodup) :
    (∀ k v, (k, v) ∈ u →
      Dict.lookup (ConfigManagerYaml.mergeConfig d u) k = mergedValue (Dict.lookup d k) v)
    ∧ (∀ k dd uu, (k, JValue.obj uu) ∈ u → Dict.lookup d k = some (JValue.obj dd) →
      Dict.lookup (ConfigManagerYaml.mergeConfig d u) k = some (JValue.obj (Dict.update dd uu)))
    ∧ (∀ k, k ∉ u.map Prod.fst →
      Dict.lookup (ConfigManagerYaml.mergeConfig d u) k = Dict.lookup d k)
    ∧ (∀ created,
      ConfigManagerYaml.get
        (ConfigManagerYaml.load_config scenarioC1FS "config/kariba_config.yaml" created).1
        "analysis_period.start_year" JValue.null = JValue.num 2018
      ∧ ConfigManagerYaml.get
        (ConfigManagerYaml.load_config scenarioC1FS "config/kariba_config.yaml" created).1
        "analysis_period.end_year" JValue.null = JValue.num 2020) := by
  refine ⟨fun k v hm => mergeConfig_lookup_mem u d k v hnd hm, ?_, ?_, ?_⟩
  · intro k dd uu hm hd
    rw [mergeConfig_lookup_mem u d k _ hnd hm, hd]
    rfl
  · exact fun k hk => mergeConfig_lookup_notMem u d k hk
  · exact fun created => ⟨rfl, rfl⟩

/-- Closed instance of C1: a user dict value updates the default dict
entry-wise instead of replacing it. -/
theorem claim_C1_witness :
    Dict.lookup (ConfigManagerYaml.mergeConfig
      [("a", JValue.num 1), ("p", JValue.obj [("x", JValue.num 1), ("y", JValue.num 2)])]
      [("p", JValue.obj [("x", JValue.num 9)]), ("b", JValue.str "z")]) "p"
      = some (JValue.obj [("x", JValue.num 9), ("y", JValue.num 2)]) :=
  (claim_C1
    [("a", JValue.num 1), ("p", JValue.obj [("x", JValue.num 1), ("y", JValue.num 2)])]
    [("p", JValue.obj [("x", JValue.num 9)]), ("b", JValue.str "z")]
    (by decide)).2.1 "p"
    [("x", JValue.num 1), ("y", JValue.num 2)] [("x", JValue.num 9)]
    (List.mem_cons_self _ _) rfl

/-- Filesystem of the C2 counterexample: the config file exists and parses
to a dict that is missing every default key. -/
def fsC2 : FS :=
  fun _ => some (.parsed (.obj [("zzz", .num 1)]))

/-- Counterexample to C2 as stated: in scripts/config_manager_01.py a file
that exists and parses is returned with no overlay onto the defaults, so
get of a key present only in the default tree returns None rather than
the default value. -/
theorem claim_C2_cex :
    (ConfigManager01.load_config fsC2 "config.json").1 = JValue.obj [("zzz", JValue.num 1)]
    ∧ ConfigManager01.get (ConfigManager01.load_config fsC2 "config.json").1
        "project" JValue.null = JValue.null
    ∧ ConfigManager01.get ConfigManager01.default_config "project" JValue.null ≠ JValue.null :=
  ⟨rfl, rfl, fun h => JValue.noConfusion h⟩

/-- C2 amended: in scripts/config_manager.py (the variant that does merge
the loaded file onto the defaults) a top-level key missing from the
loaded dict but present in the default tree still resolves, through get
with no caller default, to the default value. -/
theorem claim_C2 (fs : FS) (config_file created K : String)
    (u : List (String × JValue)) (v : JValue)
    (hfile : fs config_file = some (FileContent.parsed (JValue.obj u)))
    (hne : u ≠ [])
    (hK : K ∉ u.map Prod.fst)
    (hdef : Dict.lookup (ConfigManagerYaml.default_entries created) K = some v)
    (hsplit : pySplitDot K = [K]) :
    ConfigManagerYaml.get (ConfigManagerYaml.load_config fs config_file created).1
      K JValue.null = v := by
  obtain ⟨e, rest, rfl⟩ : ∃ e rest, u = e :: rest := by
    cases u with
    | nil => exact absurd rfl hne
    | cons a b => exact ⟨a, b, rfl⟩
  unfold ConfigManagerYaml.load_config
  rw [hfile]
  unfold ConfigManagerYaml.get
  rw [hsplit]
  simp only [ConfigManagerYaml.getLoop]
  rw [mergeConfig_lookup_notMem _ _ _ hK, hdef]
  cases v <;> rfl

/-- Closed instance of the amended C2: the scenario file of `fsC2` keeps
the whole default project section. -/
theorem claim_C2_witness :
    ConfigManagerYaml.get
      (ConfigManagerYaml.load_config fsC2 "config/kariba_config.yaml" "2024-01-01").1
      "project" JValue.null =
    JValue.obj [
      ("name", JValue.str "Lake Kariba Floating Solar Wind Analysis"),
      ("version", JValue.str "2.0"),
      ("description", JValue.str "Enhanced wind analysis for floating solar feasibility"),
      ("author", JValue.str "Wind Analysis Team"),
      ("created", JValue.str "2024-01-01")] :=
  claim_C2 fsC2 "config/kariba_config.yaml" "2024-01-01" "project"
    [("zzz", JValue.num 1)] _ rfl (List.cons_ne_nil _ _) (by decide) rfl rfl

/-- C3: for a non-empty relative path string stored under the key, get_path
joins it to the configured base directory; for an absolute path string it
returns the string unchanged. -/
theorem claim_C3 (config : JValue) (key P : String)
    (hP : ConfigurationManager.get config key JValue.null = JValue.str P) :
    (P ≠ "" → isAbsolute P = false →
      ∀ B, ConfigurationManager.get config "paths.base_directory" (JValue.str ".") =
        JValue.str B →
      ConfigurationManager.get_path config key = Except.ok (some (joinPath B P)))
    ∧ (isAbsolute P = true →
      ConfigurationManager.get_path config key = Except.ok (some P)) := by
  constructor
  · intro hne habs B hB
    unfold ConfigurationManager.get_path
    rw [hP, hB]
    simp [isFalsy, hne, habs]
  · intro habs
    have hne : P ≠ "" := by
      intro h
      subst h
      exact absurd habs (by decide)
    unfold ConfigurationManager.get_path
    rw [hP]
    simp [isFalsy, hne, habs]

/-- Configuration of the C3 witness: an absolute base directory, a
relative data path and an absolute output path. -/
def cfgC3 : JValue :=
  .obj [("paths", .obj [
    ("base_directory", .str "/home/chawas/deployed/charara"),
    ("data", .obj [("wind_data", .str "data/wind_data.nc")]),
    ("output", .obj [("base", .str "/home/chawas/deployed/charara/output")])])]

/-- Closed instance of C3: the relative wind_data path is joined to the
base directory and the absolute output path is returned unchanged. -/
theorem claim_C3_witness :
    ConfigurationManager.get_path cfgC3 "paths.data.wind_data" =
      Except.ok (some "/home/chawas/deployed/charara/data/wind_data.nc")
    ∧ ConfigurationManager.get_path cfgC3 "paths.output.base" =
      Except.ok (some "/home/chawas/deployed/charara/output") :=
  ⟨(claim_C3 cfgC3 "paths.data.wind_data" "data/wind_data.nc" rfl).1
      (by decide) rfl "/home/chawas/deployed/charara" rfl,
    (claim_C3 cfgC3 "paths.output.base" "/home/chawas/deployed/charara/output" rfl).2 rfl⟩

/-- C4 amended: the two JSON-schema variants of get walk the dotted key
exactly as the spec states (caller default as soon as the current value
is not a dict or the segment is not one of its keys, otherwise the value
reached); the dict.get-based variant of scripts/config_manager.py
additionally substitutes the caller default when the reached value is
null. -/
theorem claim_C4 :
    (∀ (config : JValue) (key : String) (default : JValue),
      ConfigurationManager.get config key default = specGet config key default)
    ∧ (∀ (config : JValue) (key : String) (default : JValue),
      ConfigManager01.get config key default = specGet config key default)
    ∧ (∀ (config : JValue) (key : String) (default : JValue),
      ConfigManagerYaml.get config key default =
        match specWalk config (pySplitDot key) with
        | some JValue.null => default
        | some v => v
        | none => default) :=
  ⟨fun config key default => getLoop_eq_specWalk (pySplitDot key) config default,
    fun config key default => getLoop_eq_specWalk (pySplitDot key) config default,
    fun config key default => yamlGetLoop_eq_specWalk (pySplitDot key) config default⟩

/-- Counterexample to C4 as stated: on a tree storing null, the
dict.get-based get of scripts/config_manager.py returns the caller
default instead of the reached null value. -/
theorem claim_C4_cex :
    specWalk (JValue.obj [("a", JValue.null)]) (pySplitDot "a") = some JValue.null
    ∧ ConfigManagerYaml.get (JValue.obj [("a", JValue.null)]) "a" (JValue.num 7) = JValue.num 7
    ∧ JValue.num 7 ≠ JValue.null :=
  ⟨rfl, rfl, fun h => JValue.noConfusion h⟩

/-- Filesystem whose config file holds malformed text. -/
def fsMalformed : FS :=
  fun _ => some .malformed

/-- Counterexample to C5 as stated: on a malformed config file,
load_config of scripts/configuration_manager.py terminates the process
through sys.exit(1) instead of falling back to the default tree. -/
theorem claim_C5_cex :
    ConfigurationManager.load_config fsMalformed "config.json" =
      ConfigurationManager.LoadOutcome.exited 1 := rfl

/-- C5 amended: on a malformed config file, the loaders of
scripts/config_manager_01.py and scripts/config_manager.py catch the
parse error and return the hardcoded default tree (also rewriting the
file with it), while the loader of scripts/configuration_manager.py
exits the process with code 1. -/
theorem claim_C5 (fs : FS) (config_file created : String)
    (h : fs config_file = some FileContent.malformed) :
    ConfigManager01.load_config fs config_file =
      (ConfigManager01.default_config,
        writeFile fs config_file ConfigManager01.default_config)
    ∧ (ConfigManagerYaml.load_config fs config_file created).1 =
      JValue.obj (ConfigManagerYaml.default_entries created)
    ∧ ConfigurationManager.load_config fs config_file =
      ConfigurationManager.LoadOutcome.exited 1 := by
  refine ⟨?_, ?_, ?_⟩
  · unfold ConfigManager01.load_config
    rw [h]
    rfl
  · unfold ConfigManagerYaml.load_config
    rw [h]
  · unfold ConfigurationManager.load_config
    rw [h]

/-- Closed instance of the amended C5 at a concrete malformed file. -/
theorem claim_C5_witness :
    ConfigManager01.load_config fsMalformed "scripts/config.json" =
      (ConfigManager01.default_config,
        writeFile fsMalformed "scripts/config.json" ConfigManager01.default_config)
    ∧ (ConfigManagerYaml.load_config fsMalformed "scripts/config.json" "2024-01-01").1 =
      JValue.obj (ConfigManagerYaml.default_entries "2024-01-01")
    ∧ ConfigurationManager.load_config fsMalformed "scripts/config.json" =
      ConfigurationManager.LoadOutcome.exited 1 :=
  claim_C5 fsMalformed "scripts/config.json" "2024-01-01" rfl

/-- Counterexample to C6 as stated: with a directory list where the first
creation fails, _create_directories of scripts/config_manager.py
propagates the failure and never attempts the second directory, while
the loop of scripts/config_manager_01.py attempts both. -/
theorem claim_C6_cex :
    ConfigManagerYaml.create_directories (fun s => s == "/out/a") ["/out/a", "/out/b"] =
      Except.error "/out/a"
    ∧ ConfigManager01.setup_directories (fun s => s == "/out/a") ["/out/a", "/out/b"] =
      [("/out/a", false), ("/out/b", true)] :=
  ⟨rfl, rfl⟩

/-- C6 amended: the per-directory loop of scripts/config_manager_01.py
attempts every directory in the list and always completes, recording each
failure for that directory only; the unguarded loop of
scripts/config_manager.py instead propagates the first failure and never
attempts the remaining directories. -/
theorem claim_C6 :
    (∀ (fails : String → Bool) (dirs : List String),
      (ConfigManager01.setup_directories fails dirs).map Prod.fst = dirs)
    ∧ (∀ (fails : String → Bool) (dirs : List String) (d : String), d ∈ dirs →
      (d, !fails d) ∈ ConfigManager01.setup_directories fails dirs)
    ∧ (∀ (fails : String → Bool) (dirs : List String),
      (∀ d, d ∈ dirs → fails d = false) →
      ConfigManagerYaml.create_directories fails dirs = Except.ok dirs)
    ∧ (∀ (fails : String → Bool) (d : String) (rest : List String), fails d = true →
      ConfigManagerYaml.create_directories fails (d :: rest) = Except.error d) := by
  refine ⟨?_, ?_, ?_, ?_⟩
  · intro fails dirs
    induction dirs with
    | nil => rfl
    | cons d rest ih => simp [ConfigManager01.setup_directories, ih]
  · intro fails dirs d hd
    induction dirs with
    | nil => cases hd
    | cons d0 rest ih =>
      rcases List.mem_cons.mp hd with h | h
      · subst h
        exact List.mem_cons_self _ _
      · exact List.mem_cons_of_mem _ (ih h)
  · intro fails dirs h
    induction dirs with
    | nil => rfl
    | cons d rest ih =>
      have hd : fails d = false := h d (List.mem_cons_self _ _)
      have hrest := ih (fun x hx => h x (List.mem_cons_of_mem _ hx))
      simp [ConfigManagerYaml.create_directories, hd, hrest]
  · intro fails d rest h
    simp [ConfigManagerYaml.create_directories, h]

/-- Closed instance of the amended C6: a failing first directory is
recorded and the rest still attempted in the guarded loop, and all
directories are created when nothing fails. -/
theorem claim_C6_witness :
    (ConfigManager01.setup_directories (fun s => s == "/out/a")
      ["/out/a", "/out/b"]).map Prod.fst = ["/out/a", "/out/b"]
    ∧ ConfigManagerYaml.create_directories (fun _ => false) ["/out/a", "/out/b"] =
      Except.ok ["/out/a", "/out/b"] :=
  ⟨(claim_C6.1 (fun s => s == "/out/a") ["/out/a", "/out/b"]),
    claim_C6.2.2.1 (fun _ => false) ["/out/a", "/out/b"] (fun _ _ => rfl)⟩

/-- C7: saving the in-memory tree and constructing a fresh manager against
the same file path reproduces the saved tree field-for-field (and hence
under every dotted lookup); nothing is regenerated at load time. -/
theorem claim_C7 (fs : FS) (config_file : String) (config : JValue) :
    (ConfigManager01.load_config
      (ConfigManager01.save_config fs config_file config) config_file).1 = config
    ∧ ∀ (key : String) (default : JValue),
      ConfigManager01.get
        (ConfigManager01.load_config
          (ConfigManager01.save_config fs config_file config) config_file).1 key default =
      ConfigManager01.get config key default := by
  have h : (ConfigManager01.save_config fs config_file config) config_file =
      some (FileContent.parsed config) := by
    simp [ConfigManager01.save_config, writeFile]
  have h1 : (ConfigManager01.load_config
      (ConfigManager01.save_config fs config_file config) config_file).1 = config := by
    unfold ConfigManager01.load_config
    rw [h]
  exact ⟨h1, fun key default => by rw [h1]⟩

/-- Loadable configuration of the C8 counterexample: analysis_period is
present but not a mapping. -/
def cfgC8 : JValue :=
  .obj [("analysis_period", .num 5)]

/-- Filesystem whose config file parses to `cfgC8`. -/
def fsC8 : FS :=
  fun _ => some (.parsed cfgC8)

/-- Counterexample to C8 as stated: the configuration of `fsC8` is loaded
as is, and update_analysis_period raises on it (subscript assignment into
a non-dict) instead of setting the two year fields. -/
theorem claim_C8_cex :
    (ConfigManager01.load_config fsC8 "config.json").1 = cfgC8
    ∧ ConfigManager01.update_analysis_period fsC8 "config.json" cfgC8 2018 2021 =
      Except.error () :=
  ⟨rfl, rfl⟩

/-- The tree after update_analysis_period: the analysis_period entry
replaced by the old mapping with start_year and end_year assigned. -/
def updatedPeriod (entries ap : List (String × JValue)) (s e : Int) :
    List (String × JValue) :=
  Dict.set entries "analysis_period"
    (JValue.obj (Dict.set (Dict.set ap "start_year" (JValue.num s))
      "end_year" (JValue.num e)))

/-- C8 amended: on every configuration whose analysis_period entry is a
mapping (or absent, in which case an empty one is inserted first),
update_analysis_period sets analysis_period.start_year and
analysis_period.end_year, rewrites only the backing file with the updated
tree, and leaves every other top-level entry and every other
analysis_period entry unchanged; a non-mapping analysis_period value
raises instead. -/
theorem claim_C8 (fs : FS) (config_file : String)
    (entries ap : List (String × JValue)) (s e : Int)
    (hap : Dict.lookup entries "analysis_period" = some (JValue.obj ap)) :
    ConfigManager01.update_analysis_period fs config_file (JValue.obj entries) s e =
      Except.ok (JValue.obj (updatedPeriod entries ap s e),
        writeFile fs config_file (JValue.obj (updatedPeriod entries ap s e)))
    ∧ ConfigManager01.get (JValue.obj (updatedPeriod entries ap s e))
        "analysis_period.start_year" JValue.null = JValue.num s
    ∧ ConfigManager01.get (JValue.obj (updatedPeriod entries ap s e))
        "analysis_period.end_year" JValue.null = JValue.num e
    ∧ (∀ k, k ≠ "analysis_period" →
        Dict.lookup (updatedPeriod entries ap s e) k = Dict.lookup entries k)
    ∧ (∀ k, k ≠ "start_year" → k ≠ "end_year" →
        Dict.lookup (Dict.set (Dict.set ap "start_year" (JValue.num s))
          "end_year" (JValue.num e)) k = Dict.lookup ap k)
    ∧ (∀ p, p ≠ config_file →
        writeFile fs config_file (JValue.obj (updatedPeriod entries ap s e)) p = fs p)
    ∧ (∀ (entries2 : List (String × JValue)),
        Dict.lookup entries2 "analysis_period" = none →
        ConfigManager01.update_analysis_period fs config_file (JValue.obj entries2) s e =
          Except.ok
            (JValue.obj (updatedPeriod
              (Dict.set entries2 "analysis_period" (JValue.obj [])) [] s e),
             writeFile fs config_file (JValue.obj (updatedPeriod
              (Dict.set entries2 "analysis_period" (JValue.obj [])) [] s e)))) := by
  have hsy : ("start_year" : String) ≠ "end_year" := by decide
  refine ⟨?_, ?_, ?_, ?_, ?_, ?_, ?_⟩
  · simp [ConfigManager01.update_analysis_period, hap, updatedPeriod,
      ConfigManager01.save_config]
  · unfold ConfigManager01.get updatedPeriod
    rw [show pySplitDot "analysis_period.start_year" =
      ["analysis_period", "start_year"] from rfl]
    simp only [ConfigurationManager.getLoop, Dict.lookup_set_self]
    rw [Dict.lookup_set_ne _ _ _ _ hsy, Dict.lookup_set_self]
  · unfold ConfigManager01.get updatedPeriod
    rw [show pySplitDot "analysis_period.end_year" =
      ["analysis_period", "end_year"] from rfl]
    simp only [ConfigurationManager.getLoop, Dict.lookup_set_self]
  · intro k hk
    exact Dict.lookup_set_ne entries "analysis_period" _ k hk
  · intro k h1 h2
    rw [Dict.lookup_set_ne _ _ _ _ h2, Dict.lookup_set_ne _ _ _ _ h1]
  · intro p hp
    simp [writeFile, hp]
  · intro entries2 h2
    simp [ConfigManager01.update_analysis_period, h2, Dict.lookup_set_self,
      updatedPeriod, ConfigManager01.save_config]

/-- Closed instance of the amended C8: updating the period of a concrete
loaded configuration sets both years, keeps the project entry and
rewrites the backing file. -/
theorem claim_C8_witness :
    ConfigManager01.update_analysis_period fsC8 "config.json"
      (JValue.obj [("project", JValue.str "p"),
        ("analysis_period", JValue.obj
          [("start_year", JValue.num 2015), ("end_year", JValue.num 2020)])])
      2018 2021 =
    Except.ok (JValue.obj [("project", JValue.str "p"),
        ("analysis_period", JValue.obj
          [("start_year", JValue.num 2018), ("end_year", JValue.num 2021)])],
      writeFile fsC8 "config.json" (JValue.obj [("project", JValue.str "p"),
        ("analysis_period", JValue.obj
          [("start_year", JValue.num 2018), ("end_year", JValue.num 2021)])])) :=
  (claim_C8 fsC8 "config.json"
    [("project", JValue.str "p"),
      ("analysis_period", JValue.obj
        [("start_year", JValue.num 2015), ("end_year", JValue.num 2020)])]
    [("start_year", JValue.num 2015), ("end_year", JValue.num 2020)]
    2018 2021 rfl).1

/-- Counterexample to C9 as stated: a child exit code of 2 is surfaced by
the terminal launcher as exit code 1, not verbatim. -/
theorem claim_C9_cex :
    RunAnalysis.terminal_main true true (RunAnalysis.ChildOutcome.code 2) = 1
    ∧ (1 : Int) ≠ 2 :=
  ⟨rfl, by decide⟩

/-- C9 amended: both launchers block on the child and exit 0 exactly when
the virtual environment and the analysis script exist and the child
exited 0; every other child exit code, an exception, or a missing-file
precondition is collapsed to exit code 1. -/
theorem claim_C9 :
    (∀ c : Int, RunAnalysis.terminal_main true true (RunAnalysis.ChildOutcome.code c) =
      if c = 0 then 0 else 1)
    ∧ (∀ (s : Bool) (child : RunAnalysis.ChildOutcome),
      RunAnalysis.terminal_main false s child = 1)
    ∧ (∀ (v : Bool) (child : RunAnalysis.ChildOutcome),
      RunAnalysis.terminal_main v false child = 1)
    ∧ (∀ (v s : Bool), RunAnalysis.terminal_main v s RunAnalysis.ChildOutcome.interrupted = 1)
    ∧ (∀ c : Int, RunAnalysis.standalone_run true true (RunAnalysis.ChildOutcome.code c) =
      if c = 0 then 0 else 1)
    ∧ (∀ (s : Bool) (child : RunAnalysis.ChildOutcome),
      RunAnalysis.standalone_run false s child = 1)
    ∧ (∀ (v : Bool) (child : RunAnalysis.ChildOutcome),
      RunAnalysis.standalone_run v false child = 1)
    ∧ (∀ (v s : Bool), RunAnalysis.standalone_run v s RunAnalysis.ChildOutcome.interrupted = 1) := by
  refine ⟨fun c => rfl, fun s child => rfl, ?_, ?_, fun c => rfl, fun s child => rfl, ?_, ?_⟩
  · intro v child
    cases v <;> rfl
  · intro v s
    cases v <;> cases s <;> rfl
  · intro v child
    cases v <;> rfl
  · intro v s
    cases v <;> cases s <;> rfl

/-- C10: the module-level get_config accessor is a process-wide singleton:
the first call caches the constructed instance, and every later call
returns that same instance while ignoring its config_file argument, even
when the argument differs. -/
theorem claim_C10 :
    (∀ (config_file : Option String),
      ConfigurationManager.get_config none config_file = (config_file, some config_file))
    ∧ (∀ (inst config_file : Option String),
      ConfigurationManager.get_config (some inst) config_file = (inst, some inst))
    ∧ (∀ (f1 f2 : Option String),
      (ConfigurationManager.get_config (ConfigurationManager.get_config none f1).2 f2).1 =
        (ConfigurationManager.get_config none f1).1
      ∧ (ConfigurationManager.get_config (ConfigurationManager.get_config none f1).2 f2).2 =
        (ConfigurationManager.get_config none f1).2) :=
  ⟨fun _ => rfl, fun _ _ => rfl, fun _ _ => ⟨rfl, rfl⟩⟩
